import Mathlib

/-!
Verification development for the RCS chatbot flow-builder.

We shallowly embed the state-synchronization logic of the repository:
the localStorage persistence adapter (`src/lib/localStorage.ts`,
given as `src/unnamed/part_000`), the debounced autosave hook
(`src/hooks/useAutoSave.ts`), the flow-state model and node creation
(`src/components/FlowBuilder.tsx`), and the per-card direct persistence
patches of the RichCard (`src/unnamed/part_002`) and CarouselCard
(`src/components/nodes/CarouselCard.tsx`) editors.

The persisted blob is JSON text; the editors patch it at the level of the
parsed JSON value with JavaScript object-spread semantics.  We therefore
embed a JSON value type `J` with spread-style field update, and model the
persisted slot as holding either a well-formed JSON value or a corrupt
text (one the external `JSON.parse` would reject).  `JSON.stringify` /
`JSON.parse` themselves are external library functions; we model the fact
that parsing a just-stringified value returns that value, and keep their
possible failures (quota, corrupt text) as explicit cases.
-/

namespace Flow

/-- A JSON value, as produced by `JSON.parse`.  Numbers are modelled as
integers (every number the synchronization logic manipulates is one).
Object fields are a key-value list in insertion order, matching the
enumeration order JavaScript preserves and `JSON.stringify` emits. -/
inductive J where
  | jnull : J
  | jbool : Bool → J
  | jnum : Int → J
  | jstr : String → J
  | jarr : List J → J
  | jobj : List (String × J) → J

/-- Field lookup in a key-value list (`obj.k`): first binding wins. -/
def lookupField : List (String × J) → String → Option J
  | [], _ => none
  | (k', v) :: rest, k => if k' = k then some v else lookupField rest k

/-- `node.k` on a JSON value: `none` when the value is not an object or
the key is absent (JavaScript `undefined`). -/
def J.get : J → String → Option J
  | .jobj fs, k => lookupField fs k
  | _, _ => none

/-- Object-spread update of a key-value list, `{...obj, k: v}`:
an existing key keeps its position and receives the new value, a new key
is appended at the end.  This is exactly the JavaScript behaviour. -/
def setField : List (String × J) → String → J → List (String × J)
  | [], k, v => [(k, v)]
  | (k', v') :: rest, k, v =>
      if k' = k then (k, v) :: rest else (k', v') :: setField rest k v

/-- `{...base, k: v}` on a JSON value.  Spreading a non-object
(JavaScript spreads `null`, numbers and strings to no own enumerable
properties) yields an object holding just the new binding. -/
def J.set : J → String → J → J
  | .jobj fs, k, v => .jobj (setField fs k v)
  | _, k, v => .jobj [(k, v)]

/-! ## Typed data model (src/types/CardTypes.ts, src/types/FlowTypes.ts) -/

/-- `ButtonData` of CardTypes.ts.  `type` and `title` are optional there;
the extra unknown fields of the index signature are not part of the declared
shape and are not modelled on the typed side (the JSON side `J` carries
arbitrary extra fields, which is where the code manipulates them). -/
structure ButtonData where
  id : String
  label : String
  action : String
  type : Option String
  title : Option String
  deriving DecidableEq, Repr

/-- `RichCardData` of CardTypes.ts. -/
structure RichCardData where
  id : String
  title : String
  description : String
  imageUrl : String
  buttons : List ButtonData
  deriving DecidableEq, Repr

/-- `CarouselCardData` of CardTypes.ts: a sequence of nested rich cards. -/
structure CarouselCardData where
  cards : List RichCardData
  deriving DecidableEq, Repr

/-- The `NodeTypes` enum of FlowTypes.ts. -/
inductive NodeTypes where
  | richCard
  | carouselCard
  deriving DecidableEq, Repr

/-- The string value of each `NodeTypes` enum member. -/
def NodeTypes.tag : NodeTypes → String
  | .richCard => "richCard"
  | .carouselCard => "carouselCard"

/-- The payload union `RichCardData | CarouselCardData` of a node. -/
inductive CardData where
  | rich : RichCardData → CardData
  | carousel : CarouselCardData → CardData
  deriving DecidableEq, Repr

/-- A node position on the canvas. -/
structure Position where
  x : Int
  y : Int
  deriving DecidableEq, Repr

/-- `CustomNode` of FlowTypes.ts. -/
structure CustomNode where
  id : String
  type : NodeTypes
  data : CardData
  position : Position
  deriving DecidableEq, Repr

/-- A flow edge: id plus source and target node ids. -/
structure Edge where
  id : String
  source : String
  target : String
  deriving DecidableEq, Repr

/-- `FlowState` of FlowTypes.ts: the persisted/shared model. -/
structure FlowState where
  nodes : List CustomNode
  edges : List Edge
  deriving DecidableEq, Repr

/-! ## JSON encoding of the typed model (what `JSON.stringify` emits) -/

/-- JSON form of a button; absent optional fields are omitted, as
`JSON.stringify` omits `undefined` properties. -/
def encodeButton (b : ButtonData) : J :=
  .jobj ([("id", .jstr b.id), ("label", .jstr b.label),
          ("action", .jstr b.action)]
    ++ (match b.type with | some t => [("type", J.jstr t)] | none => [])
    ++ (match b.title with | some t => [("title", J.jstr t)] | none => []))

/-- JSON form of a rich card. -/
def encodeRich (r : RichCardData) : J :=
  .jobj [("id", .jstr r.id), ("title", .jstr r.title),
         ("description", .jstr r.description), ("imageUrl", .jstr r.imageUrl),
         ("buttons", .jarr (r.buttons.map encodeButton))]

/-- JSON form of a carousel payload. -/
def encodeCarousel (c : CarouselCardData) : J :=
  .jobj [("cards", .jarr (c.cards.map encodeRich))]

/-- JSON form of a node payload. -/
def encodeData : CardData → J
  | .rich r => encodeRich r
  | .carousel c => encodeCarousel c

/-- JSON form of a node. -/
def encodeNode (n : CustomNode) : J :=
  .jobj [("id", .jstr n.id), ("type", .jstr n.type.tag),
         ("data", encodeData n.data),
         ("position", .jobj [("x", .jnum n.position.x), ("y", .jnum n.position.y)])]

/-- JSON form of an edge. -/
def encodeEdge (e : Edge) : J :=
  .jobj [("id", .jstr e.id), ("source", .jstr e.source), ("target", .jstr e.target)]

/-- JSON form of a whole flow state. -/
def encodeFlow (s : FlowState) : J :=
  .jobj [("nodes", .jarr (s.nodes.map encodeNode)),
         ("edges", .jarr (s.edges.map encodeEdge))]

/-! ## Reading the typed model back off a JSON value.

The TypeScript adapter performs no schema validation (`JSON.parse(s) as
FlowState`); the decoder below is the meaning of that trusted cast on
values that do have the declared shape, and fails on values that do not. -/

/-- Expect a JSON string. -/
def decodeStr : Option J → Option String
  | some (.jstr s) => some s
  | _ => none

/-- Expect an optional JSON string (absent field allowed). -/
def decodeOptStr : Option J → Option (Option String)
  | some (.jstr s) => some (some s)
  | none => some none
  | _ => none

/-- Expect a JSON integer. -/
def decodeInt : Option J → Option Int
  | some (.jnum n) => some n
  | _ => none

/-- Expect a JSON array, returning its elements. -/
def decodeArr : Option J → Option (List J)
  | some (.jarr xs) => some xs
  | _ => none

/-- Decode every element of a list. -/
def decodeList (f : J → Option α) : List J → Option (List α)
  | [] => some []
  | x :: xs => do
      let a ← f x
      let as ← decodeList f xs
      return a :: as

/-- Decode a button. -/
def decodeButton : J → Option ButtonData
  | .jobj fs => do
      let id ← decodeStr (lookupField fs "id")
      let label ← decodeStr (lookupField fs "label")
      let action ← decodeStr (lookupField fs "action")
      let ty ← decodeOptStr (lookupField fs "type")
      let title ← decodeOptStr (lookupField fs "title")
      return ⟨id, label, action, ty, title⟩
  | _ => none

/-- Decode a rich card. -/
def decodeRich : J → Option RichCardData
  | .jobj fs => do
      let id ← decodeStr (lookupField fs "id")
      let title ← decodeStr (lookupField fs "title")
      let description ← decodeStr (lookupField fs "description")
      let imageUrl ← decodeStr (lookupField fs "imageUrl")
      let buttonsJ ← decodeArr (lookupField fs "buttons")
      let buttons ← decodeList decodeButton buttonsJ
      return ⟨id, title, description, imageUrl, buttons⟩
  | _ => none

/-- Decode a carousel payload. -/
def decodeCarousel : J → Option CarouselCardData
  | .jobj fs => do
      let cardsJ ← decodeArr (lookupField fs "cards")
      let cards ← decodeList decodeRich cardsJ
      return ⟨cards⟩
  | _ => none

/-- Decode a position object. -/
def decodePos : J → Option Position
  | .jobj pfs => do
      let x ← decodeInt (lookupField pfs "x")
      let y ← decodeInt (lookupField pfs "y")
      return ⟨x, y⟩
  | _ => none

/-- Decode a node type tag. -/
def decodeTag (s : String) : Option NodeTypes :=
  if s = "richCard" then some .richCard
  else if s = "carouselCard" then some .carouselCard
  else none

/-- Decode a node payload by its shape.  The TypeScript cast does not
couple the `type` tag to the payload shape, so neither does the
read-back: a rich payload is one with the rich-card fields, a carousel
payload one with a `cards` array (the two shapes are disjoint). -/
def decodeData (j : J) : Option CardData :=
  match decodeRich j with
  | some r => some (.rich r)
  | none => (decodeCarousel j).map CardData.carousel

/-- Decode a node. -/
def decodeNode : J → Option CustomNode
  | .jobj fs => do
      let id ← decodeStr (lookupField fs "id")
      let tyStr ← decodeStr (lookupField fs "type")
      let dataJ ← lookupField fs "data"
      let posJ ← lookupField fs "position"
      let pos ← decodePos posJ
      let ty ← decodeTag tyStr
      let data ← decodeData dataJ
      return ⟨id, ty, data, pos⟩
  | _ => none

/-- Decode an edge. -/
def decodeEdge : J → Option Edge
  | .jobj fs => do
      let id ← decodeStr (lookupField fs "id")
      let source ← decodeStr (lookupField fs "source")
      let target ← decodeStr (lookupField fs "target")
      return ⟨id, source, target⟩
  | _ => none

/-- Decode a whole flow state. -/
def decodeFlow : J → Option FlowState
  | .jobj fs => do
      let nodesJ ← decodeArr (lookupField fs "nodes")
      let nodes ← decodeList decodeNode nodesJ
      let edgesJ ← decodeArr (lookupField fs "edges")
      let edges ← decodeList decodeEdge edgesJ
      return ⟨nodes, edges⟩
  | _ => none

/-! ## Persistent Store Adapter (src/lib/localStorage.ts) -/

/-- The text stored under the `chatbot-flow-state` key: either a
well-formed JSON text, carried as its parse, or a corrupt text that
`JSON.parse` rejects with an exception. -/
inductive Blob where
  | wf : J → Blob
  | corrupt : Blob

/-- The browser storage environment.  `slot` is the value under the
single key `chatbot-flow-state` (`none` = key absent).  The `Ok` flags
say whether each underlying operation succeeds on the next call; a
`false` flag stands for the thrown exception (quota exceeded,
serialization failure, storage access error) that the
`try`/`catch` blocks of the adapter must swallow. -/
structure Store where
  slot : Option Blob
  stringifyOk : Bool
  setItemOk : Bool
  getItemOk : Bool
  removeItemOk : Bool

/-- `saveFlowState`: serialize and write the state under the key.  If
`JSON.stringify` or `localStorage.setItem` throws, the `catch` logs and
the store is left unchanged (a no-op, no exception escapes). -/
def saveFlowState (s : FlowState) (st : Store) : Store :=
  if st.stringifyOk && st.setItemOk then
    { st with slot := some (.wf (encodeFlow s)) }
  else st

/-- `loadFlowState`: read the key and parse.  A missing key returns
`null`; a `getItem` failure or a `JSON.parse` exception on corrupt text
is caught and converted to `null`.  The `as FlowState` cast is the
trusted read-back of the declared shape. -/
def loadFlowState (st : Store) : Option FlowState :=
  if st.getItemOk then
    match st.slot with
    | none => none
    | some .corrupt => none
    | some (.wf j) => decodeFlow j
  else none

/-- `clearFlowState`: remove the key; a `removeItem` failure is caught
and leaves the store unchanged. -/
def clearFlowState (st : Store) : Store :=
  if st.removeItemOk then { st with slot := none } else st

/-! ## Round trip: decoding an encoded value gives it back -/

theorem decodeList_map_encode {α : Type} (f : J → Option α) (g : α → J)
    (xs : List α) (h : ∀ x ∈ xs, f (g x) = some x) :
    decodeList f (xs.map g) = some xs := by
  induction xs with
  | nil => rfl
  | cons x xs ih =>
      simp only [List.map_cons, decodeList, h x (by simp)]
      rw [ih (fun y hy => h y (by simp [hy]))]
      rfl

theorem decodeButton_encodeButton (b : ButtonData) :
    decodeButton (encodeButton b) = some b := by
  rcases b with ⟨id, label, action, ty, title⟩
  cases ty <;> cases title <;>
    simp [encodeButton, decodeButton, lookupField, decodeStr, decodeOptStr]

theorem decodeRich_encodeRich (r : RichCardData) :
    decodeRich (encodeRich r) = some r := by
  rcases r with ⟨id, title, description, imageUrl, buttons⟩
  simp [encodeRich, decodeRich, lookupField, decodeStr, decodeArr,
    decodeList_map_encode decodeButton encodeButton buttons
      (fun x _ => decodeButton_encodeButton x)]

theorem decodeCarousel_encodeCarousel (c : CarouselCardData) :
    decodeCarousel (encodeCarousel c) = some c := by
  rcases c with ⟨cards⟩
  simp [encodeCarousel, decodeCarousel, lookupField, decodeArr,
    decodeList_map_encode decodeRich encodeRich cards
      (fun x _ => decodeRich_encodeRich x)]

theorem decodeRich_encodeCarousel (c : CarouselCardData) :
    decodeRich (encodeCarousel c) = none := by
  simp [encodeCarousel, decodeRich, lookupField, decodeStr]

theorem decodeData_encodeData (d : CardData) :
    decodeData (encodeData d) = some d := by
  cases d with
  | rich r => simp [encodeData, decodeData, decodeRich_encodeRich]
  | carousel c =>
      simp [encodeData, decodeData, decodeRich_encodeCarousel,
        decodeCarousel_encodeCarousel]

theorem decodeNode_encodeNode (n : CustomNode) :
    decodeNode (encodeNode n) = some n := by
  rcases n with ⟨id, ty, data, pos⟩
  cases ty <;>
    simp [encodeNode, decodeNode, lookupField, decodeStr, decodePos,
      decodeInt, decodeTag, NodeTypes.tag, decodeData_encodeData]

theorem decodeEdge_encodeEdge (e : Edge) :
    decodeEdge (encodeEdge e) = some e := by
  rcases e with ⟨id, source, target⟩
  simp [encodeEdge, decodeEdge, lookupField, decodeStr]

theorem decodeFlow_encodeFlow (s : FlowState) :
    decodeFlow (encodeFlow s) = some s := by
  rcases s with ⟨nodes, edges⟩
  simp [encodeFlow, decodeFlow, lookupField, decodeArr,
    decodeList_map_encode decodeNode encodeNode nodes
      (fun x _ => decodeNode_encodeNode x),
    decodeList_map_encode decodeEdge encodeEdge edges
      (fun x _ => decodeEdge_encodeEdge x)]

/-! ## Debounced autosave (src/hooks/useAutoSave.ts)

The effect of the hook re-runs whenever the flow state or the enabled flag
changes.  React first runs the cleanup of the previous effect — which clears
the pending timeout, cancelling any scheduled write — then the new body,
which returns immediately when disabled and otherwise schedules a write
of the current state after the debounce interval.  We model the
observable machine: a pending scheduled write, the enabled flag and the
store, driven by dependency-change events and timer expiry. -/

/-- Observable state of the `useAutoSave` effect. -/
structure AutoState where
  pending : Option FlowState
  enabled : Bool
  store : Store

/-- Events driving the effect: a flow-state change (effect re-runs with
the new state), a change of the enabled flag (effect re-runs with the
current state), and expiry of the debounce interval. -/
inductive AEvent where
  | update : FlowState → AEvent
  | setEnabled : Bool → FlowState → AEvent
  | fire : AEvent

/-- One step of the effect machine.  Returns the new state and the
write performed by this step, if any.  A dependency change always
cancels the pending write (the cleanup of the last enabled run clears
the timeout; when disabled nothing was pending) and schedules a new one
exactly when enabled; timer expiry performs the pending write through
`saveFlowState`. -/
def stepAuto (st : AutoState) : AEvent → AutoState × Option FlowState
  | .update s =>
      ({ st with pending := if st.enabled then some s else none }, none)
  | .setEnabled b s =>
      ({ st with enabled := b, pending := if b then some s else none }, none)
  | .fire =>
      match st.pending with
      | some s => ({ st with pending := none, store := saveFlowState s st.store }, some s)
      | none => (st, none)

/-- Run a sequence of events, collecting the writes in order. -/
def runAuto (st : AutoState) : List AEvent → AutoState × List FlowState
  | [] => (st, [])
  | e :: es =>
      let p := stepAuto st e
      let q := runAuto p.1 es
      (q.1, p.2.toList ++ q.2)

theorem runAuto_append (st : AutoState) (es fs : List AEvent) :
    runAuto st (es ++ fs) =
      ((runAuto (runAuto st es).1 fs).1,
        (runAuto st es).2 ++ (runAuto (runAuto st es).1 fs).2) := by
  induction es generalizing st with
  | nil => simp [runAuto]
  | cons e es ih => simp [runAuto, ih, List.append_assoc]

/-- A nonempty burst of updates while enabled performs no write and
leaves the last state pending (each update cancels and reschedules). -/
theorem runAuto_updates (ss : List FlowState) (s : FlowState)
    (p : Option FlowState) (store : Store) :
    runAuto ⟨p, true, store⟩ ((s :: ss).map .update) =
      (⟨some ((s :: ss).getLast (by simp)), true, store⟩, []) := by
  induction ss generalizing s p with
  | nil => simp [runAuto, stepAuto]
  | cons s' ss ih =>
      simp only [List.map_cons, runAuto, stepAuto] at ih ⊢
      simpa [List.getLast] using ih s' (some s)

/-! ## Flow State Model / initial load / node creation
(src/components/FlowBuilder.tsx) -/

/-- A carousel record of the fallback sample JSON.  The carousel entries of the static data carry an `id` (read by `fetchInitialData` through the
index signature) alongside their nested cards. -/
structure SampleCarousel where
  id : String
  cards : List RichCardData

/-- The fallback sample JSON resource. -/
structure SampleData where
  richCards : List RichCardData
  carouselCards : List SampleCarousel

/-- Map with the element index, as `Array.prototype.map(fn(v, i))`. -/
def mapWithIndex (f : Nat → α → β) : List α → List β
  | [] => []
  | x :: xs => f 0 x :: mapWithIndex (fun i a => f (i + 1) a) xs

/-- The nodes and edges `fetchInitialData` synthesizes from the sample
JSON: rich cards on the row `y = 300` and carousel cards on the row
`y = 50`, both at `x = 250·index`; carousel nodes listed first; one
edge per carousel and nested card, with id `{carousel.id}-to-{card.id}`. -/
def buildSampleFlow (d : SampleData) : FlowState :=
  let richCardNodes := mapWithIndex
    (fun i card => CustomNode.mk card.id .richCard (.rich card)
      ⟨250 * (i : Int), 300⟩) d.richCards
  let carouselCardNodes := mapWithIndex
    (fun i c => CustomNode.mk c.id .carouselCard (.carousel ⟨c.cards⟩)
      ⟨250 * (i : Int), 50⟩) d.carouselCards
  let allNodes := carouselCardNodes ++ richCardNodes
  let sampleEdges := d.carouselCards.flatMap
    (fun c => c.cards.map
      (fun card => Edge.mk (c.id ++ "-to-" ++ card.id) c.id card.id))
  ⟨allNodes, sampleEdges⟩

/-- `fetchInitialData`: use the persisted state when it exists and has a
nonempty node list, otherwise synthesize the initial flow from the
sample JSON. -/
def initialFlow (st : Store) (sample : SampleData) : FlowState :=
  match loadFlowState st with
  | some saved => if saved.nodes.length > 0 then saved else buildSampleFlow sample
  | none => buildSampleFlow sample

/-- The node `addNode` creates: id `{type-tag}-{timestamp}` and the
fixed default payload of the chosen type.  The canvas position is
viewport- and randomness-dependent and passed in. -/
def newNodeFor (ty : NodeTypes) (now : Nat) (pos : Position) : CustomNode :=
  let id := ty.tag ++ "-" ++ toString now
  match ty with
  | .richCard =>
      ⟨id, ty, .rich ⟨id, "New Rich Card", "Add a description here...", "", []⟩, pos⟩
  | .carouselCard =>
      ⟨id, ty, .carousel ⟨[⟨id ++ "-card-1", "Card 1",
        "Add a description here...", "", []⟩]⟩, pos⟩

/-- `addNode`: append the new node to the node sequence. -/
def addNode (nds : List CustomNode) (ty : NodeTypes) (now : Nat)
    (pos : Position) : List CustomNode :=
  nds ++ [newNodeFor ty now pos]

/-! ## The direct persisted-blob patch shared by the card editors

`autoSave` in the RichCard editor, and `autoSave`/`addCard` in the
CarouselCard editor, all read the raw blob from storage, map over its
`nodes` array replacing the `data` of the node whose `id` equals the
node id of the editor, and write the whole blob back — all inside one
`try`/`catch`, so any failure (missing blob, corrupt text, wrong shape,
stringify/setItem throw) leaves the store untouched. -/

/-- `node.id === id` on the parsed blob. -/
def nodeIdIs (n : J) (id : String) : Bool :=
  match n.get "id" with
  | some (.jstr s) => s = id
  | _ => false

/-- `node.data` as used by the spread `{...node.data, ...}`; an absent
field spreads like the empty object. -/
def dataOf (n : J) : J :=
  match n.get "data" with
  | some d => d
  | none => .jobj []

/-- `flowState.nodes.map(node => node.id === id ? {...node, data: f(node.data)} : node)`. -/
def patchNodes (id : String) (f : J → J) (ns : List J) : List J :=
  ns.map (fun n => if nodeIdIs n id then n.set "data" (f (dataOf n)) else n)

/-- The whole read–patch–write transaction on the store. -/
def directPatch (id : String) (f : J → J) (st : Store) : Store :=
  if st.getItemOk then
    match st.slot with
    | some (.wf j) =>
        match j.get "nodes" with
        | some (.jarr ns) =>
            if st.stringifyOk && st.setItemOk then
              { st with slot := some (.wf (j.set "nodes" (.jarr (patchNodes id f ns)))) }
            else st
        | _ => st
    | _ => st
  else st

/-- The RichCard `autoSave` data merge
`{...node.data, buttons, title, description, imageUrl}`. -/
def richPatch (buttons : List ButtonData) (title description imageUrl : String)
    (d : J) : J :=
  ((((d.set "buttons" (.jarr (buttons.map encodeButton))).set
    "title" (.jstr title)).set
    "description" (.jstr description)).set
    "imageUrl" (.jstr imageUrl))

/-- The CarouselCard data merge `{...node.data, cards: updatedCards}`. -/
def carouselPatch (cards : List RichCardData) (d : J) : J :=
  d.set "cards" (.jarr (cards.map encodeRich))

/-! ## RichCard editor (src/unnamed/part_002)

React semantics made explicit: event handlers close over the state
values of the render they were created in; `setCard`/`setActions` only
take effect at the next re-render ("settle"); assignments to `cardData`
fields mutate the shared payload object immediately.  The `card` state
is *initialized to the `cardData` object itself*, so until the first
`setCard` commits, reads of `card` see mutations of `cardData`
(`aliased`); the first commit replaces it with a fresh object. -/

structure RichWorld where
  /-- The node id prop of the editor. -/
  nodeId : String
  /-- The shared payload object (`node.data` in the flow model),
  mutated in place by the editor. -/
  cardData : RichCardData
  /-- The `card` useState value the current render's handlers read
  (meaningful only when not `aliased`). -/
  renderCard : RichCardData
  /-- `card` still aliases the `cardData` object. -/
  aliased : Bool
  /-- The value `card` will have after the next re-render. -/
  pendingCard : RichCardData
  pendingAliased : Bool
  /-- The `actions` useState value of the current render. -/
  renderActions : List ButtonData
  pendingActions : List ButtonData
  store : Store

/-- Component mount: `useState(cardData)` aliases, `useState(cardData.buttons ?? [])`. -/
def RichWorld.mount (nodeId : String) (d : RichCardData) (st : Store) : RichWorld :=
  ⟨nodeId, d, d, true, d, true, d.buttons, d.buttons, st⟩

/-- What a read of the `card` state yields in the current render. -/
def RichWorld.readCard (w : RichWorld) : RichCardData :=
  if w.aliased then w.cardData else w.renderCard

/-- The RichCard `autoSave` call: patches the blob with the *render*
values of `actions`, `card.title`, `card.description` and the shared
`cardData.imageUrl`. -/
def RichWorld.autoSave (w : RichWorld) : Store :=
  directPatch w.nodeId
    (richPatch w.renderActions w.readCard.title w.readCard.description
      w.cardData.imageUrl) w.store

/-- `onChangeContent(value, "title")`: schedule the local copy, mutate
the shared payload, then run the direct patch. -/
def richEditTitle (w : RichWorld) (v : String) : RichWorld :=
  let w1 := { w with pendingCard := { w.readCard with title := v },
                     pendingAliased := false }
  let w2 := { w1 with cardData := { w1.cardData with title := v } }
  { w2 with store := w2.autoSave }

/-- `onChangeContent(value, "description")`. -/
def richEditDescription (w : RichWorld) (v : String) : RichWorld :=
  let w1 := { w with pendingCard := { w.readCard with description := v },
                     pendingAliased := false }
  let w2 := { w1 with cardData := { w1.cardData with description := v } }
  { w2 with store := w2.autoSave }

/-- The action `addAction` constructs (the UI always passes
`type = "action"`). -/
def richNewAction (actions : List ButtonData) (ty : String) (now : Nat) :
    ButtonData :=
  ⟨"action-" ++ toString now,
   "Action " ++ toString (actions.length + 1),
   "DEFAULT_ACTION", some ty,
   some (if ty = "action" then "Action Title" else "")⟩

/-- `addAction(type)`: append to the render `actions`, schedule the
state update, rebind `cardData.buttons`, then `autoSave()` — which
still reads the render `actions` of this closure. -/
def richAddAction (w : RichWorld) (ty : String) (now : Nat) : RichWorld :=
  let updatedActions := w.renderActions ++ [richNewAction w.renderActions ty now]
  let w1 := { w with pendingActions := updatedActions,
                     cardData := { w.cardData with buttons := updatedActions } }
  { w1 with store := w1.autoSave }

/-- A re-render: committed state becomes the render state. -/
def richSettle (w : RichWorld) : RichWorld :=
  { w with renderCard := w.pendingCard, aliased := w.pendingAliased,
           renderActions := w.pendingActions }

/-! ## CarouselCard editor (src/components/nodes/CarouselCard.tsx)

Unlike the RichCard editor, every handler here computes the updated
card list first and passes it to `autoSave(updatedCards)` (or uses the
local variable directly in `addCard`), so its direct patches write the
fresh value. -/

structure CarWorld where
  nodeId : String
  /-- The shared payload (`node.data.cards` rebindings mutate it). -/
  cardData : CarouselCardData
  /-- The `cards` useState value of the current render. -/
  renderCards : List RichCardData
  pendingCards : List RichCardData
  store : Store

def CarWorld.mount (nodeId : String) (d : CarouselCardData) (st : Store) : CarWorld :=
  ⟨nodeId, d, d.cards, d.cards, st⟩

/-- The CarouselCard `autoSave(updatedCards)` direct patch. -/
def CarWorld.autoSave (cards : List RichCardData) (w : CarWorld) : Store :=
  directPatch w.nodeId (carouselPatch cards) w.store

/-- The card `addCard` constructs.  (The literal also carries a
`speaker: "bot"` entry through the index signature, outside the
declared `RichCardData` shape; no claim depends on it.) -/
def carNewCard (now : Nat) : RichCardData :=
  ⟨"rich-card-" ++ toString now, "New Card", "Add description here...", "", []⟩

/-- `addCard`: append to `cardData.cards` (read from the shared
payload), rebind it, schedule `setCards` from the render list, and
patch the blob with the fresh list. -/
def carAddCard (w : CarWorld) (now : Nat) : CarWorld :=
  let updatedCardIds := w.cardData.cards ++ [carNewCard now]
  let w1 := { w with cardData := ⟨updatedCardIds⟩,
                     pendingCards := w.renderCards ++ [carNewCard now] }
  { w1 with store := w1.autoSave updatedCardIds }

/-- `onchangeContent(e, card, "title")`. -/
def carEditTitle (w : CarWorld) (cardId v : String) : CarWorld :=
  let updatedCards := w.renderCards.map
    (fun c => if c.id = cardId then { c with title := v } else c)
  let w1 := { w with cardData := ⟨updatedCards⟩, pendingCards := updatedCards }
  { w1 with store := w1.autoSave updatedCards }

/-- `onchangeContent(e, card, "description")`. -/
def carEditDescription (w : CarWorld) (cardId v : String) : CarWorld :=
  let updatedCards := w.renderCards.map
    (fun c => if c.id = cardId then { c with description := v } else c)
  let w1 := { w with cardData := ⟨updatedCards⟩, pendingCards := updatedCards }
  { w1 with store := w1.autoSave updatedCards }

/-- The action the carousel `addAction` constructs: fixed label text. -/
def carNewAction (now : Nat) : ButtonData :=
  ⟨"action-" ++ toString now, "Choose a type of CTA.... ",
   "DEFAULT_ACTION", some "action", some "Action Title"⟩

/-- `addAction(card)`: append the new action to the buttons of the matching
card, rebind, and patch with the fresh list. -/
def carAddAction (w : CarWorld) (cardId : String) (now : Nat) : CarWorld :=
  let updatedCards := w.renderCards.map
    (fun c => if c.id = cardId then
        { c with buttons := c.buttons ++ [carNewAction now] } else c)
  let w1 := { w with cardData := ⟨updatedCards⟩, pendingCards := updatedCards }
  { w1 with store := w1.autoSave updatedCards }

/-- A re-render of the carousel editor. -/
def carSettle (w : CarWorld) : CarWorld :=
  { w with renderCards := w.pendingCards }

/-! ## Frame lemmas for the spread-style field update -/

theorem lookupField_setField_self (fs : List (String × J)) (k : String) (v : J) :
    lookupField (setField fs k v) k = some v := by
  induction fs with
  | nil => simp [setField, lookupField]
  | cons p fs ih =>
      obtain ⟨k', v'⟩ := p
      by_cases h : k' = k <;> simp [setField, lookupField, h, ih]

theorem lookupField_setField_ne (fs : List (String × J)) (k k' : String)
    (v : J) (h : k' ≠ k) :
    lookupField (setField fs k v) k' = lookupField fs k' := by
  induction fs with
  | nil => simp [setField, lookupField, Ne.symm h]
  | cons p fs ih =>
      obtain ⟨k'', v''⟩ := p
      by_cases hk : k'' = k
      · subst hk
        simp [setField, lookupField, Ne.symm h]
      · simp [setField, lookupField, hk, ih]

theorem get_set_self (j : J) (k : String) (v : J) :
    (j.set k v).get k = some v := by
  cases j <;> simp [J.set, J.get, lookupField, lookupField_setField_self]

theorem get_set_ne (j : J) (k k' : String) (v : J) (h : k' ≠ k) :
    (j.set k v).get k' = j.get k' := by
  cases j <;>
    simp [J.set, J.get, lookupField, lookupField_setField_ne _ _ _ _ h, Ne.symm h]

theorem richPatch_get_ne (bs : List ButtonData) (t ds img : String) (d : J)
    (k : String) (h1 : k ≠ "buttons") (h2 : k ≠ "title")
    (h3 : k ≠ "description") (h4 : k ≠ "imageUrl") :
    (richPatch bs t ds img d).get k = d.get k := by
  simp [richPatch, get_set_ne _ _ _ _ h4, get_set_ne _ _ _ _ h3,
    get_set_ne _ _ _ _ h2, get_set_ne _ _ _ _ h1]

theorem carouselPatch_get_ne (cards : List RichCardData) (d : J)
    (k : String) (h : k ≠ "cards") :
    (carouselPatch cards d).get k = d.get k := by
  simp [carouselPatch, get_set_ne _ _ _ _ h]

/-- A missing blob makes the whole read–patch–write a no-op. -/
theorem directPatch_slot_none (id : String) (f : J → J) (st : Store)
    (h : st.slot = none) : directPatch id f st = st := by
  unfold directPatch
  rw [h]
  split <;> rfl

/-- Updates arriving while autosave is disabled schedule nothing and
write nothing. -/
theorem runAuto_updates_disabled (ss : List FlowState) (st : Store) :
    runAuto ⟨none, false, st⟩ (ss.map AEvent.update) = (⟨none, false, st⟩, []) := by
  induction ss with
  | nil => rfl
  | cons s ss ih => simp [runAuto, stepAuto, ih]

/-! ## Claims -/

/-- C2: for every `FlowState` value, saving it through the Persistent
Store Adapter and loading again returns a value equal to it, whenever
the underlying storage operations (serialization and the key write and
read) succeed. -/
theorem saveLoad_roundtrip (s : FlowState) (st : Store)
    (h1 : st.stringifyOk = true) (h2 : st.setItemOk = true)
    (h3 : st.getItemOk = true) :
    loadFlowState (saveFlowState s st) = some s := by
  simp [saveFlowState, loadFlowState, h1, h2, h3, decodeFlow_encodeFlow]

theorem saveLoad_roundtrip_witness :
    loadFlowState (saveFlowState
      ⟨[⟨"n1", .richCard,
          .rich ⟨"n1", "t", "d", "", [⟨"b1", "Chip", "DEFAULT_ACTION", some "action", some "T"⟩]⟩,
          ⟨0, 0⟩⟩],
        [⟨"e1", "n1", "n2"⟩]⟩
      ⟨none, true, true, true, true⟩) =
    some ⟨[⟨"n1", .richCard,
          .rich ⟨"n1", "t", "d", "", [⟨"b1", "Chip", "DEFAULT_ACTION", some "action", some "T"⟩]⟩,
          ⟨0, 0⟩⟩],
        [⟨"e1", "n1", "n2"⟩]⟩ :=
  saveLoad_roundtrip _ _ rfl rfl rfl

/-- C3: the three adapter operations never propagate an exception (they
are total functions of the modelled failure environment): a
serialization or `setItem` failure makes `save` a no-op, a `getItem`
failure makes `load` return null, a `removeItem` failure makes `clear`
a no-op, and `load` on a missing or corrupt (unparseable) record
returns null. -/
theorem store_never_throws (s : FlowState) (st : Store) :
    (st.stringifyOk = false → saveFlowState s st = st) ∧
    (st.setItemOk = false → saveFlowState s st = st) ∧
    (st.getItemOk = false → loadFlowState st = none) ∧
    (st.removeItemOk = false → clearFlowState st = st) ∧
    (st.slot = none → loadFlowState st = none) ∧
    (st.slot = some .corrupt → loadFlowState st = none) := by
  refine ⟨fun h => ?_, fun h => ?_, fun h => ?_, fun h => ?_,
    fun h => ?_, fun h => ?_⟩ <;>
    simp [saveFlowState, loadFlowState, clearFlowState, h]

theorem store_never_throws_witness :
    saveFlowState ⟨[], []⟩ ⟨none, false, true, true, true⟩ =
      ⟨none, false, true, true, true⟩ ∧
    saveFlowState ⟨[], []⟩ ⟨none, true, false, true, true⟩ =
      ⟨none, true, false, true, true⟩ ∧
    loadFlowState ⟨some (.wf (.jobj [])), true, true, false, true⟩ = none ∧
    clearFlowState ⟨some .corrupt, true, true, true, false⟩ =
      ⟨some .corrupt, true, true, true, false⟩ ∧
    loadFlowState ⟨none, true, true, true, true⟩ = none ∧
    loadFlowState ⟨some .corrupt, true, true, true, true⟩ = none :=
  ⟨(store_never_throws ⟨[], []⟩ _).1 rfl,
   (store_never_throws ⟨[], []⟩ _).2.1 rfl,
   (store_never_throws ⟨[], []⟩ _).2.2.1 rfl,
   (store_never_throws ⟨[], []⟩ _).2.2.2.1 rfl,
   (store_never_throws ⟨[], []⟩ _).2.2.2.2.1 rfl,
   (store_never_throws ⟨[], []⟩ _).2.2.2.2.2 rfl⟩

/-- C4: a nonempty burst of state updates within one debounce window
while autosave is enabled leaves exactly the latest state pending (each
update cancels and reschedules), and when the interval then elapses
exactly one write occurs, of that latest state. -/
theorem useAutoSave_debounce_window (ss : List FlowState) (store : Store)
    (h : ss ≠ []) :
    (runAuto ⟨none, true, store⟩ (ss.map AEvent.update)).1.pending =
      some (ss.getLast h) ∧
    runAuto ⟨none, true, store⟩ (ss.map AEvent.update ++ [AEvent.fire]) =
      (⟨none, true, saveFlowState (ss.getLast h) store⟩, [ss.getLast h]) := by
  match ss with
  | s :: ss' =>
    have hu := runAuto_updates ss' s none store
    refine ⟨by rw [hu], ?_⟩
    rw [runAuto_append, hu]
    simp [runAuto, stepAuto]

theorem useAutoSave_debounce_window_witness :
    runAuto ⟨none, true, ⟨none, true, true, true, true⟩⟩
        ([⟨[], []⟩, ⟨[], [⟨"e", "a", "b"⟩]⟩].map AEvent.update ++ [AEvent.fire]) =
      (⟨none, true, saveFlowState ⟨[], [⟨"e", "a", "b"⟩]⟩
          ⟨none, true, true, true, true⟩⟩,
        [⟨[], [⟨"e", "a", "b"⟩]⟩]) :=
  (useAutoSave_debounce_window [⟨[], []⟩, ⟨[], [⟨"e", "a", "b"⟩]⟩]
    ⟨none, true, true, true, true⟩ (by simp)).2

/-- C5: a state change followed by disabling autosave before the
interval elapses cancels the pending write: no write ever occurs for
that change, and while disabled any further updates schedule nothing,
so timer expiry writes nothing and the store is untouched. -/
theorem useAutoSave_disable_cancels (p : Option FlowState) (s s' : FlowState)
    (st : Store) (ss : List FlowState) :
    runAuto ⟨p, true, st⟩
      (AEvent.update s :: AEvent.setEnabled false s' ::
        (ss.map AEvent.update ++ [AEvent.fire])) =
      (⟨none, false, st⟩, []) := by
  show (runAuto ⟨p, true, st⟩
    ([AEvent.update s, AEvent.setEnabled false s'] ++
      (ss.map AEvent.update ++ [AEvent.fire]))) = _
  rw [runAuto_append]
  have h2 : runAuto ⟨p, true, st⟩ [AEvent.update s, AEvent.setEnabled false s'] =
      (⟨none, false, st⟩, []) := by
    simp [runAuto, stepAuto]
  rw [h2, runAuto_append, runAuto_updates_disabled]
  simp [runAuto, stepAuto]

/-- C6: with no persisted state (or an empty persisted node list), the
initial load falls back to the sample JSON; for a sample of 2 rich
cards and 1 carousel of 2 nested cards the resulting flow has exactly
3 top-level nodes — the carousel at position `(0, 50)` and the rich
cards on their own row at `(0, 300)` and `(250, 300)` (250-unit
spacing) — and exactly one edge per carousel/nested-card pair, with id
`{carousel.id}-to-{card.id}`, source the carousel id and target the
nested card id. -/
theorem initialLoad_sample_fallback (st : Store) (r1 r2 : RichCardData)
    (cid : String) (k1 k2 : RichCardData)
    (hload : loadFlowState st = none ∨
      ∃ fs, loadFlowState st = some fs ∧ fs.nodes = []) :
    initialFlow st ⟨[r1, r2], [⟨cid, [k1, k2]⟩]⟩ =
      ⟨[⟨cid, .carouselCard, .carousel ⟨[k1, k2]⟩, ⟨0, 50⟩⟩,
        ⟨r1.id, .richCard, .rich r1, ⟨0, 300⟩⟩,
        ⟨r2.id, .richCard, .rich r2, ⟨250, 300⟩⟩],
       [⟨cid ++ "-to-" ++ k1.id, cid, k1.id⟩,
        ⟨cid ++ "-to-" ++ k2.id, cid, k2.id⟩]⟩ ∧
    (initialFlow st ⟨[r1, r2], [⟨cid, [k1, k2]⟩]⟩).nodes.length = 3 := by
  have hfall : initialFlow st ⟨[r1, r2], [⟨cid, [k1, k2]⟩]⟩ =
      buildSampleFlow ⟨[r1, r2], [⟨cid, [k1, k2]⟩]⟩ := by
    rcases hload with h | ⟨fs, h, hn⟩
    · simp [initialFlow, h]
    · simp [initialFlow, h, hn]
  rw [hfall]
  constructor
  · simp [buildSampleFlow, mapWithIndex]
  · simp [buildSampleFlow, mapWithIndex]

theorem initialLoad_sample_fallback_witness :
    (loadFlowState ⟨none, true, true, true, true⟩ = none ∨
      ∃ fs, loadFlowState ⟨none, true, true, true, true⟩ = some fs ∧
        fs.nodes = []) ∧
    initialFlow ⟨none, true, true, true, true⟩
        ⟨[⟨"r1", "t1", "d", "", []⟩, ⟨"r2", "t2", "d", "", []⟩],
         [⟨"c1", [⟨"k1", "kt", "d", "", []⟩, ⟨"k2", "kt", "d", "", []⟩]⟩]⟩ =
      ⟨[⟨"c1", .carouselCard,
          .carousel ⟨[⟨"k1", "kt", "d", "", []⟩, ⟨"k2", "kt", "d", "", []⟩]⟩,
          ⟨0, 50⟩⟩,
        ⟨"r1", .richCard, .rich ⟨"r1", "t1", "d", "", []⟩, ⟨0, 300⟩⟩,
        ⟨"r2", .richCard, .rich ⟨"r2", "t2", "d", "", []⟩, ⟨250, 300⟩⟩],
       [⟨"c1-to-k1", "c1", "k1"⟩, ⟨"c1-to-k2", "c1", "k2"⟩]⟩ :=
  ⟨Or.inl rfl,
    (initialLoad_sample_fallback ⟨none, true, true, true, true⟩
      ⟨"r1", "t1", "d", "", []⟩ ⟨"r2", "t2", "d", "", []⟩ "c1"
      ⟨"k1", "kt", "d", "", []⟩ ⟨"k2", "kt", "d", "", []⟩ (Or.inl rfl)).1⟩

/-- C7: adding a node appends exactly one node at the end of the
sequence, leaving every existing entry unchanged; the new node has id
`{type-tag}-{timestamp}` and the fixed default payload of its type
(Rich Card: title `New Rich Card`, placeholder description, empty
image, no buttons; Carousel Card: one seeded nested card `Card 1`). -/
theorem addNode_appends (nds : List CustomNode) (now : Nat) (pos : Position) :
    addNode nds .richCard now pos =
      nds ++ [⟨"richCard-" ++ toString now, .richCard,
        .rich ⟨"richCard-" ++ toString now, "New Rich Card",
          "Add a description here...", "", []⟩, pos⟩] ∧
    addNode nds .carouselCard now pos =
      nds ++ [⟨"carouselCard-" ++ toString now, .carouselCard,
        .carousel ⟨[⟨("carouselCard-" ++ toString now) ++ "-card-1", "Card 1",
          "Add a description here...", "", []⟩]⟩, pos⟩] := by
  exact ⟨rfl, rfl⟩

/-! ## C1: the rich-card title edit and the three representations -/

/-- Observation helper: the `title` inside the `data` of the unique
node carrying the given id in the persisted blob. -/
def persistedNodeTitle (st : Store) (nid : String) : Option J :=
  match st.slot with
  | some (.wf j) =>
      match j.get "nodes" with
      | some (.jarr ns) =>
          match ns.filter (fun n => nodeIdIs n nid) with
          | [n] => (dataOf n).get "title"
          | _ => none
      | _ => none
  | _ => none

/-- The C1 scenario payload: a rich card with initial title `T0`. -/
def c1Card : RichCardData := ⟨"n1", "T0", "D0", "", []⟩

/-- The C1 scenario store: a persisted record holding that node exists
and every storage operation succeeds. -/
def c1Store : Store :=
  ⟨some (.wf (encodeFlow ⟨[⟨"n1", .richCard, .rich c1Card, ⟨0, 0⟩⟩], []⟩)),
    true, true, true, true⟩

/-- The C1 scenario run: mount the editor, edit the title to `A`,
re-render, edit the title to `B`, re-render. -/
def c1World : RichWorld :=
  richSettle (richEditTitle
    (richSettle (richEditTitle (RichWorld.mount "n1" c1Card c1Store) "A")) "B")

/-- C1 (failing trace): after the second title edit settles, the local
editor state and the shared payload both show the new title `B`, but
the persisted record still holds the previous title `A`: the rich-card
`autoSave` reads `card.title` from the stale render closure instead of
the value just entered, so the persisted node does not equal the newly
entered title. -/
theorem richCard_titleEdit_stale_persist :
    c1World.readCard.title = "B" ∧
    c1World.cardData.title = "B" ∧
    persistedNodeTitle c1World.store "n1" = some (.jstr "A") ∧
    ("A" : String) ≠ "B" :=
  ⟨rfl, rfl, rfl, by decide⟩

/-! ## C8: edits while the persisted blob is absent -/

/-- C8: a card-editor edit issued while no value sits under the storage
key leaves the store untouched — the direct patch silently no-ops and
the slot stays absent — while the in-memory shared payload already
reflects the edit. -/
theorem edit_missing_blob_noop (w : RichWorld) (cw : CarWorld)
    (v cardId : String) (now : Nat)
    (hw : w.store.slot = none) (hc : cw.store.slot = none) :
    ((richEditTitle w v).store = w.store ∧
      (richEditTitle w v).cardData.title = v) ∧
    ((richEditDescription w v).store = w.store ∧
      (richEditDescription w v).cardData.description = v) ∧
    ((carEditTitle cw cardId v).store = cw.store ∧
      (carEditTitle cw cardId v).cardData.cards =
        cw.renderCards.map
          (fun c => if c.id = cardId then { c with title := v } else c)) ∧
    ((carEditDescription cw cardId v).store = cw.store ∧
      (carEditDescription cw cardId v).cardData.cards =
        cw.renderCards.map
          (fun c => if c.id = cardId then { c with description := v } else c)) ∧
    ((carAddCard cw now).store = cw.store ∧
      (carAddCard cw now).cardData.cards =
        cw.cardData.cards ++ [carNewCard now]) :=
  ⟨⟨directPatch_slot_none _ _ _ hw, rfl⟩,
   ⟨directPatch_slot_none _ _ _ hw, rfl⟩,
   ⟨directPatch_slot_none _ _ _ hc, rfl⟩,
   ⟨directPatch_slot_none _ _ _ hc, rfl⟩,
   ⟨directPatch_slot_none _ _ _ hc, rfl⟩⟩

/-- The C8 witness editors, mounted over an empty store slot. -/
def c8Rich : RichWorld :=
  RichWorld.mount "n1" ⟨"n1", "T", "D", "", []⟩ ⟨none, true, true, true, true⟩

def c8Car : CarWorld :=
  CarWorld.mount "c1" ⟨[⟨"k1", "t", "d", "", []⟩]⟩ ⟨none, true, true, true, true⟩

theorem edit_missing_blob_noop_witness :
    ((richEditTitle c8Rich "V").store = c8Rich.store ∧
      (richEditTitle c8Rich "V").cardData.title = "V") ∧
    ((carAddCard c8Car 7).store = c8Car.store ∧
      (carAddCard c8Car 7).cardData.cards =
        c8Car.cardData.cards ++ [carNewCard 7]) :=
  ⟨(edit_missing_blob_noop c8Rich c8Car "V" "k1" 7 rfl rfl).1,
   (edit_missing_blob_noop c8Rich c8Car "V" "k1" 7 rfl rfl).2.2.2.2⟩

/-! ## C9: adding an action/button -/

/-- C9 (counterexample): the claim says the appended action carries a
fixed default label text, but the rich-card editor derives the label
from the current button count — two different current sequences yield
two different labels. -/
theorem addAction_label_not_fixed :
    (richNewAction [] "action" 5).label = "Action 1" ∧
    (richNewAction [⟨"b1", "Chip", "DEFAULT_ACTION", none, none⟩]
      "action" 5).label = "Action 2" ∧
    ("Action 1" : String) ≠ "Action 2" :=
  ⟨rfl, rfl, by decide⟩

/-- C9 (amended): adding an action appends exactly one new entry at the
end of the respective button sequence, with timestamp-derived id
`action-{timestamp}` and the default label of the respective editor —
`Action {count+1}` in the rich-card editor, the fixed text
`Choose a type of CTA.... ` in the carousel editor — leaving all
previously existing buttons unchanged. -/
theorem addAction_appends (w : RichWorld) (cw : CarWorld)
    (cardId ty : String) (now : Nat) :
    (richAddAction w ty now).cardData.buttons =
      w.renderActions ++ [richNewAction w.renderActions ty now] ∧
    (richNewAction w.renderActions ty now).id = "action-" ++ toString now ∧
    (richNewAction w.renderActions ty now).label =
      "Action " ++ toString (w.renderActions.length + 1) ∧
    (carAddAction cw cardId now).cardData.cards =
      cw.renderCards.map (fun c => if c.id = cardId then
        { c with buttons := c.buttons ++ [carNewAction now] } else c) ∧
    (carNewAction now).id = "action-" ++ toString now ∧
    (carNewAction now).label = "Choose a type of CTA.... " :=
  ⟨rfl, rfl, rfl, rfl, rfl, rfl⟩

/-! ## C10: the direct patch is a frame on everything but the matched
node data -/

/-- C10: a direct-patch write alters only the `data` of the node(s)
whose id equals the editor node id: every other top-level field of the
blob (in particular `edges`), the node count and order, every
non-matching node, and every non-`data` field of a matched node are
preserved verbatim; the rich-card merge preserves every data field
other than `buttons`, `title`, `description` and `imageUrl`, the
carousel merges every data field other than `cards`; and the three
writers (rich `autoSave`, carousel `autoSave`, carousel `addCard`) are
all instances of this transaction. -/
theorem directPatch_frame (id : String) (f : J → J) (st : Store)
    (j : J) (ns : List J)
    (hslot : st.slot = some (.wf j))
    (hns : j.get "nodes" = some (.jarr ns))
    (hget : st.getItemOk = true) (hstr : st.stringifyOk = true)
    (hset : st.setItemOk = true) :
    (∃ ns',
      (directPatch id f st).slot = some (.wf (j.set "nodes" (.jarr ns'))) ∧
      (∀ k, k ≠ "nodes" → (j.set "nodes" (.jarr ns')).get k = j.get k) ∧
      ns'.length = ns.length ∧
      (∀ (i : Nat) (n : J), ns[i]? = some n → nodeIdIs n id = false →
        ns'[i]? = some n) ∧
      (∀ (i : Nat) (n : J), ns[i]? = some n → nodeIdIs n id = true →
        ∃ n', ns'[i]? = some n' ∧
          (∀ k, k ≠ "data" → n'.get k = n.get k) ∧
          n'.get "data" = some (f (dataOf n)))) ∧
    (∀ (bs : List ButtonData) (t ds img : String) (d : J) (k : String),
      k ≠ "buttons" → k ≠ "title" → k ≠ "description" → k ≠ "imageUrl" →
      (richPatch bs t ds img d).get k = d.get k) ∧
    (∀ (cards : List RichCardData) (d : J) (k : String), k ≠ "cards" →
      (carouselPatch cards d).get k = d.get k) ∧
    (∀ w : RichWorld, w.autoSave = directPatch w.nodeId
      (richPatch w.renderActions w.readCard.title w.readCard.description
        w.cardData.imageUrl) w.store) ∧
    (∀ (cards : List RichCardData) (cw : CarWorld),
      cw.autoSave cards = directPatch cw.nodeId (carouselPatch cards) cw.store) ∧
    (∀ (cw : CarWorld) (now : Nat), (carAddCard cw now).store =
      directPatch cw.nodeId
        (carouselPatch (cw.cardData.cards ++ [carNewCard now])) cw.store) := by
  refine ⟨⟨patchNodes id f ns, ?_, ?_, ?_, ?_, ?_⟩,
    fun bs t ds img d k h1 h2 h3 h4 => richPatch_get_ne bs t ds img d k h1 h2 h3 h4,
    fun cards d k h => carouselPatch_get_ne cards d k h,
    fun w => rfl, fun cards cw => rfl, fun cw now => rfl⟩
  · simp [directPatch, hslot, hns, hget, hstr, hset]
  · intro k hk
    exact get_set_ne _ _ _ _ hk
  · simp [patchNodes]
  · intro i n hi hmatch
    rw [patchNodes, List.getElem?_map, hi]
    simp [hmatch]
  · intro i n hi hmatch
    refine ⟨n.set "data" (f (dataOf n)), ?_, ?_, get_set_self _ _ _⟩
    · rw [patchNodes, List.getElem?_map, hi]
      simp [hmatch]
    · intro k hk
      exact get_set_ne _ _ _ _ hk

/-- The C10 witness blob: one matching node with an extra data field,
one edges array. -/
def c10Node : J := .jobj [("id", .jstr "n1"), ("data", .jobj [("keep", .jnull)])]

def c10J : J := .jobj [("nodes", .jarr [c10Node]), ("edges", .jarr [])]

def c10Store : Store := ⟨some (.wf c10J), true, true, true, true⟩

theorem directPatch_frame_witness :
    ∃ ns',
      (directPatch "n1" (carouselPatch []) c10Store).slot =
        some (.wf (c10J.set "nodes" (.jarr ns'))) ∧
      (∀ k, k ≠ "nodes" → (c10J.set "nodes" (.jarr ns')).get k = c10J.get k) ∧
      ns'.length = [c10Node].length ∧
      (∀ (i : Nat) (n : J), [c10Node][i]? = some n → nodeIdIs n "n1" = false →
        ns'[i]? = some n) ∧
      (∀ (i : Nat) (n : J), [c10Node][i]? = some n → nodeIdIs n "n1" = true →
        ∃ n', ns'[i]? = some n' ∧
          (∀ k, k ≠ "data" → n'.get k = n.get k) ∧
          n'.get "data" = some (carouselPatch [] (dataOf n))) :=
  (directPatch_frame "n1" (carouselPatch []) c10Store c10J [c10Node]
    rfl rfl rfl rfl rfl).1

end Flow
